import Mathlib

/-!
# Verification of the SQL-GENERATOR statement builder (`main.py`)

A shallow embedding of the program in `main.py`: an interactive utility that
turns tabular data into SQL `INSERT`/`UPDATE` statement text and builds
free-form `SELECT`/`DELETE`/DDL statements from user-typed fragments.

Cell values coming out of the tabular reader are modelled as `Option String`:
`none` is a missing value (`pd.isna`), `some s` is a present value whose
Python textual form (`str(v)`) is `s`.  A data frame is its ordered column
names together with its rows, each row listing the cell values in column
order.  Python's character-level string helpers (`str.strip`, `str.lower`,
`str.split`) are embedded as structurally recursive functions on `List Char`
so that every definition evaluates inside the kernel; they capture the ASCII
behaviour of the originals, which is all the program's sentinel comparison
relies on.  File-system state is modelled explicitly so that the directory
creation and file writing in `write_queries_to_file` can be reasoned about.
-/

/-- Python `str.strip()` with no argument: remove leading and trailing
whitespace characters. -/
def pyStrip (s : String) : String :=
  String.mk (((s.data.dropWhile Char.isWhitespace).reverse.dropWhile Char.isWhitespace).reverse)

/-- Python `str.lower()`: lower-case every character (ASCII behaviour). -/
def pyLower (s : String) : String :=
  String.mk (s.data.map Char.toLower)

/-- Python `str.split(c)` for a one-character separator: the list of maximal
(possibly empty) chunks between occurrences of `c`; `"".split(c) = [""]`. -/
def pySplitChar (c : Char) : List Char → List (List Char)
  | [] => [[]]
  | a :: as =>
    let r := pySplitChar c as
    if a = c then [] :: r
    else
      match r with
      | [] => [[a]]
      | g :: gs => (a :: g) :: gs

/-- Python `s.split(c)` lifted to `String`. -/
def pySplit (s : String) (c : Char) : List String :=
  (pySplitChar c s.data).map String.mk

/-- The list of textual forms the program treats as SQL NULL, in the order the
source writes them: `['null', '', '-']` (from `main.py` lines 50 and 70). -/
def sentinelForms : List String := ["null", "", "-"]

/-- One cell's SQL literal, from the comprehension on `main.py` line 50:
`f"'{str(v)}'" if pd.notna(v) and str(v).strip().lower() not in ['null', '', '-'] else 'NULL'`. -/
def formatValue : Option String → String
  | none => "NULL"
  | some s => if pyLower (pyStrip s) ∈ sentinelForms then "NULL" else "'" ++ s ++ "'"

/-- Whether a cell is rendered as NULL: missing, or its trimmed lower-cased
textual form is one of the sentinel forms (the negation of the guard
`pd.notna(v) and str(v).strip().lower() not in ['null', '', '-']`). -/
def isSentinel : Option String → Bool
  | none => true
  | some s => pyLower (pyStrip s) ∈ sentinelForms

/-- The in-memory table produced by the tabular reader: ordered column names
and rows, each row holding one possibly-missing cell per column. -/
structure DataFrame where
  columns : List String
  rows : List (List (Option String))

/-- `generate_insert_queries` from `main.py` lines 33-56: a single INSERT
statement whose column list is the comma-joined column names and whose VALUES
section comma-joins one parenthesized tuple of formatted cells per row. -/
def generate_insert_queries (df : DataFrame) (table_name : String) : String :=
  let base_insert := "INSERT INTO " ++ table_name ++ " (" ++ String.intercalate ", " df.columns ++ ") VALUES"
  let values_list := df.rows.map (fun row => "(" ++ String.intercalate ", " (row.map formatValue) ++ ")")
  base_insert ++ " " ++ String.intercalate ", " values_list ++ ";"

/-- The loop body of `generate_update_queries` (`main.py` lines 70-71): one
UPDATE statement for one row.  The SET clause comma-joins `col = '<raw>'` for
exactly the columns whose value passes the guard
`pd.notna(row[col]) and str(row[col]).strip().lower() not in ['null', '', '-']`;
row cells are paired with column names in column order. -/
def update_row_query (table_name condition : String) (cols : List String) (row : List (Option String)) : String :=
  let set_clause := String.intercalate ", " ((cols.zip row).filterMap (fun p =>
    match p.2 with
    | some s => if pyLower (pyStrip s) ∈ sentinelForms then none else some (p.1 ++ " = '" ++ s ++ "'")
    | none => none))
  "UPDATE " ++ table_name ++ " SET " ++ set_clause ++ " WHERE " ++ condition ++ ";"

/-- `generate_update_queries` from `main.py` lines 58-74: one statement per
row, newline-joined, each reusing the same caller-supplied condition. -/
def generate_update_queries (df : DataFrame) (table_name condition : String) : String :=
  String.intercalate "\n" (df.rows.map (update_row_query table_name condition df.columns))

theorem strAppend_empty (s : String) : s ++ "" = s := by
  apply String.ext
  simp [String.data_append]

theorem strAppend_assoc (a b c : String) : a ++ b ++ c = a ++ (b ++ c) := by
  apply String.ext
  simp [String.data_append]

/-- A single-quoted string is never the token `NULL`: its first character is a
quote. -/
theorem quoted_ne_NULL (s : String) : "'" ++ s ++ "'" ≠ "NULL" := by
  intro h
  have h1 := congrArg String.data h
  simp only [String.data_append] at h1
  simp only [show ("'" : String).data = ['\''] from rfl,
      show ("NULL" : String).data = ['N', 'U', 'L', 'L'] from rfl,
      List.cons_append, List.nil_append] at h1
  injection h1 with h2 _
  exact absurd h2 (by decide)

/-- C1: the value formatter returns the unquoted token `NULL` iff the value is
missing or its trimmed, lower-cased textual form is `""`, `"null"` or `"-"`;
otherwise it returns the raw textual form wrapped in single quotes. -/
theorem C1_value_formatter (v : Option String) :
    (formatValue v = "NULL" ↔
      v = none ∨ ∃ s, v = some s ∧
        (pyLower (pyStrip s) = "" ∨ pyLower (pyStrip s) = "null" ∨ pyLower (pyStrip s) = "-")) ∧
    (∀ s, v = some s →
      ¬(pyLower (pyStrip s) = "" ∨ pyLower (pyStrip s) = "null" ∨ pyLower (pyStrip s) = "-") →
      formatValue v = "'" ++ s ++ "'") := by
  cases v with
  | none =>
    refine ⟨⟨fun _ => Or.inl rfl, fun _ => rfl⟩, ?_⟩
    intro s hs
    exact absurd hs (by simp)
  | some s =>
    have hiff : pyLower (pyStrip s) ∈ sentinelForms ↔
        (pyLower (pyStrip s) = "" ∨ pyLower (pyStrip s) = "null" ∨ pyLower (pyStrip s) = "-") := by
      simp only [sentinelForms, List.mem_cons, List.not_mem_nil, or_false]
      tauto
    by_cases hmem : pyLower (pyStrip s) ∈ sentinelForms
    · refine ⟨⟨fun _ => Or.inr ⟨s, rfl, hiff.mp hmem⟩,
        fun _ => by rw [formatValue, if_pos hmem]⟩, ?_⟩
      intro s2 hs2 hforms
      injection hs2 with he
      subst he
      exact absurd (hiff.mp hmem) hforms
    · refine ⟨⟨fun h => ?_, fun h => ?_⟩, ?_⟩
      · rw [formatValue, if_neg hmem] at h
        exact absurd h (quoted_ne_NULL s)
      · rcases h with h | ⟨s2, hs2, hf⟩
        · exact absurd h (by simp)
        · injection hs2 with he
          subst he
          exact absurd (hiff.mpr hf) hmem
      · intro s2 hs2 hforms
        injection hs2 with he
        subst he
        rw [formatValue, if_neg hmem]

/-- Witness for C1 at a concrete input: a non-sentinel value is wrapped in
quotes, raw and unescaped. -/
theorem C1_value_formatter_witness : formatValue (some "Alice") = "'Alice'" :=
  (C1_value_formatter (some "Alice")).2 "Alice" rfl (by decide)

/-- The INSERT statement shape as the specification words it: column names
comma-joined and unquoted, one parenthesized comma-joined tuple of formatted
cells per row, all row-tuples joined with `, ` after a single `VALUES`. -/
def insertStatementSpec (df : DataFrame) (table_name : String) : String :=
  "INSERT INTO " ++ table_name ++ " (" ++ String.intercalate ", " df.columns ++ ") VALUES " ++
    String.intercalate ", " (df.rows.map
      (fun row => "(" ++ String.intercalate ", " (row.map formatValue) ++ ")")) ++ ";"

/-- C2: `generate_insert_queries` emits one statement for the whole table in
the spec's shape; the spec's example table renders to exactly the quoted
statement; and a zero-row table still yields the value-less `VALUES ;`. -/
theorem C2_insert_statement :
    (∀ (df : DataFrame) (t : String), generate_insert_queries df t = insertStatementSpec df t) ∧
    generate_insert_queries ⟨["id", "name"], [[some "1", some "Alice"], [some "2", some "-"]]⟩ "users"
      = "INSERT INTO users (id, name) VALUES ('1', 'Alice'), ('2', NULL);" ∧
    (∀ (cols : List String) (t : String), generate_insert_queries ⟨cols, []⟩ t
      = "INSERT INTO " ++ t ++ " (" ++ String.intercalate ", " cols ++ ") VALUES ;") := by
  refine ⟨fun df t => ?_, by decide, fun cols t => ?_⟩
  · apply String.ext
    simp [generate_insert_queries, insertStatementSpec, String.data_append]
  · apply String.ext
    simp [generate_insert_queries, String.data_append, String.intercalate]

/-- The UPDATE SET clause as the specification words it: exactly the columns
whose value is not sentinel, each rendered `col = '<raw value>'`, comma-joined
in column order. -/
def updateSetClauseSpec (cols : List String) (row : List (Option String)) : String :=
  String.intercalate ", " (((cols.zip row).filter (fun p => !isSentinel p.2)).map
    (fun p => p.1 ++ " = '" ++ p.2.getD "" ++ "'"))

theorem setClause_filterMap_eq_filter_map (l : List (String × Option String)) :
    l.filterMap (fun p =>
      match p.2 with
      | some s => if pyLower (pyStrip s) ∈ sentinelForms then none else some (p.1 ++ " = '" ++ s ++ "'")
      | none => none)
    = (l.filter (fun p => !isSentinel p.2)).map (fun p => p.1 ++ " = '" ++ p.2.getD "" ++ "'") := by
  induction l with
  | nil => rfl
  | cons a as ih =>
    obtain ⟨c, v⟩ := a
    cases v with
    | none => simpa [isSentinel] using ih
    | some s =>
      by_cases hm : pyLower (pyStrip s) ∈ sentinelForms
      · simpa [isSentinel, hm] using ih
      · simpa [isSentinel, hm] using ih

theorem setClause_nil_of_sentinel (cols : List String) (row : List (Option String))
    (h : ∀ v ∈ row, isSentinel v = true) :
    (cols.zip row).filterMap (fun p =>
      match p.2 with
      | some s => if pyLower (pyStrip s) ∈ sentinelForms then none else some (p.1 ++ " = '" ++ s ++ "'")
      | none => none) = [] := by
  induction cols generalizing row with
  | nil => simp
  | cons c cs ih =>
    cases row with
    | nil => simp
    | cons v vs =>
      have hv := h v (by simp)
      have hrest : ∀ u ∈ vs, isSentinel u = true := fun u hu => h u (by simp [hu])
      cases v with
      | none => simpa using ih vs hrest
      | some s =>
        have hm : pyLower (pyStrip s) ∈ sentinelForms := by
          simpa [isSentinel] using hv
        simpa [hm] using ih vs hrest

/-- C3: each UPDATE statement's SET clause contains exactly the non-sentinel
columns rendered `col = '<raw>'` in column order; a row of only sentinel
values yields the `SET  WHERE` text; the spec's example renders exactly. -/
theorem C3_update_set_clause :
    (∀ (df : DataFrame) (t c : String),
      generate_update_queries df t c = String.intercalate "\n" (df.rows.map (fun row =>
        "UPDATE " ++ t ++ " SET " ++ updateSetClauseSpec df.columns row ++ " WHERE " ++ c ++ ";"))) ∧
    (∀ (t c : String) (cols : List String) (row : List (Option String)),
      (∀ v ∈ row, isSentinel v = true) →
      update_row_query t c cols row = "UPDATE " ++ t ++ " SET  WHERE " ++ c ++ ";") ∧
    generate_update_queries ⟨["id", "name"], [[some "1", some "Alice"], [some "2", some "-"]]⟩ "users" "id = 1"
      = "UPDATE users SET id = '1', name = 'Alice' WHERE id = 1;\nUPDATE users SET id = '2' WHERE id = 1;" := by
  refine ⟨fun df t c => ?_, fun t c cols row h => ?_, by decide⟩
  · unfold generate_update_queries
    congr 1
    refine List.map_congr_left fun row _ => ?_
    unfold update_row_query updateSetClauseSpec
    rw [setClause_filterMap_eq_filter_map]
  · unfold update_row_query
    rw [setClause_nil_of_sentinel cols row h]
    apply String.ext
    simp [String.data_append, String.intercalate]

/-- Witness for C3 at a concrete input: an all-sentinel row produces an empty
SET clause. -/
theorem C3_update_set_clause_witness :
    update_row_query "users" "id = 1" ["id", "name"] [some "-", none]
      = "UPDATE users SET  WHERE id = 1;" :=
  C3_update_set_clause.2.1 "users" "id = 1" ["id", "name"] [some "-", none] (by decide)

/-- C4: for every table and condition string, `generate_update_queries`
produces exactly one statement per row, newline-joined, and every statement
ends with `WHERE <condition>;` with the condition appearing verbatim. -/
theorem C4_update_condition_verbatim (df : DataFrame) (t c : String) :
    ∃ qs : List String, generate_update_queries df t c = String.intercalate "\n" qs ∧
      qs.length = df.rows.length ∧
      ∀ q ∈ qs, ∃ pre : String, q = pre ++ ("WHERE " ++ c ++ ";") := by
  refine ⟨df.rows.map (update_row_query t c df.columns), rfl, by simp, ?_⟩
  intro q hq
  obtain ⟨row, _, rfl⟩ := List.mem_map.mp hq
  refine ⟨"UPDATE " ++ t ++ " SET " ++ String.intercalate ", " ((df.columns.zip row).filterMap (fun p =>
      match p.2 with
      | some s => if pyLower (pyStrip s) ∈ sentinelForms then none else some (p.1 ++ " = '" ++ s ++ "'")
      | none => none)) ++ " ", ?_⟩
  apply String.ext
  simp [update_row_query, String.data_append]

/-- The SELECT statement from `main.py` line 157.  Note the column fragment
passes through `', '.join(columns.split(','))` before insertion. -/
def select_query (table_name columns limit offset condition : String) : String :=
  "SELECT " ++ String.intercalate ", " (pySplit columns ',') ++ " FROM " ++ table_name ++
    " WHERE " ++ condition ++ " LIMIT " ++ limit ++ " OFFSET " ++ offset ++ ";"

/-- The DELETE statement from `main.py` line 186. -/
def delete_query (table_name condition : String) : String :=
  "DELETE FROM " ++ table_name ++ " WHERE " ++ condition ++ ";"

/-- The DROP TABLE statement from `main.py` line 206. -/
def drop_table_query (table_name : String) : String :=
  "DROP TABLE IF EXISTS " ++ table_name ++ ";"

/-- The ALTER TABLE statement from `main.py` line 213. -/
def alter_table_query (table_name alter_statement : String) : String :=
  "ALTER TABLE " ++ table_name ++ " " ++ alter_statement ++ ";"

/-- The CREATE VIEW statement from `main.py` line 225. -/
def create_view_query (view_name select_statement : String) : String :=
  "CREATE VIEW " ++ view_name ++ " AS " ++ select_statement ++ ";"

/-- The DROP VIEW statement from `main.py` line 236. -/
def drop_view_query (view_name : String) : String :=
  "DROP VIEW IF EXISTS " ++ view_name ++ ";"

/-- One collected column description, from `main.py` line 198:
`f"{col_type} {col_key} {f'DEFAULT {col_default}' if col_default else ''}"`. -/
def column_def (col_type col_key col_default : String) : String :=
  col_type ++ " " ++ col_key ++ " " ++ (if col_default ≠ "" then "DEFAULT " ++ col_default else "")

/-- Python `str()` of a string-keyed, string-valued dict in insertion order,
restricted to strings without quote or escape-worthy characters (the stdlib
rendering interpolated by `f"CREATE TABLE {table_name} ({columns});"` on
`main.py` line 201): `\x7b'k': 'v', ...\x7d`. -/
def dict_repr (entries : List (String × String)) : String :=
  "\x7b" ++ String.intercalate ", " (entries.map (fun e => "'" ++ e.1 ++ "': '" ++ e.2 ++ "'")) ++ "\x7d"

/-- The CREATE TABLE statement from `main.py` line 201: the collected column
dictionary is interpolated through its Python `str()` form. -/
def create_table_query (table_name : String) (columns : List (String × String)) : String :=
  "CREATE TABLE " ++ table_name ++ " (" ++ dict_repr columns ++ ");"

/-- The SELECT template as the claim reads it: every fragment, the column
list included, inserted verbatim and unmodified. -/
def selectQueryVerbatimSpec (table_name columns limit offset condition : String) : String :=
  "SELECT " ++ columns ++ " FROM " ++ table_name ++ " WHERE " ++ condition ++
    " LIMIT " ++ limit ++ " OFFSET " ++ offset ++ ";"

theorem pySplitChar_of_not_mem (c : Char) (l : List Char) (h : ∀ ch ∈ l, ch ≠ c) :
    pySplitChar c l = [l] := by
  induction l with
  | nil => rfl
  | cons a as ih =>
    have ha : a ≠ c := h a (by simp)
    have hrest : ∀ ch ∈ as, ch ≠ c := fun ch hch => h ch (by simp [hch])
    simp [pySplitChar, ha, ih hrest]

/-- C5 counterexample: the SELECT column-list fragment is not inserted
verbatim — `a,b` is rewritten to `a, b` by the split/join in the template. -/
theorem C5_counterexample_select_columns :
    select_query "t" "a,b" "10" "0" "x" = "SELECT a, b FROM t WHERE x LIMIT 10 OFFSET 0;" ∧
    selectQueryVerbatimSpec "t" "a,b" "10" "0" "x" = "SELECT a,b FROM t WHERE x LIMIT 10 OFFSET 0;" ∧
    select_query "t" "a,b" "10" "0" "x" ≠ selectQueryVerbatimSpec "t" "a,b" "10" "0" "x" :=
  ⟨by decide, by decide, by decide⟩

/-- C5 amended: every user-supplied fragment of the free-form operations is
inserted into its fixed template verbatim and unmodified, except the SELECT
column list, which is split on commas and re-joined with `, ` (and is
therefore verbatim only when it contains no comma). -/
theorem C5_fragments_amended :
    (∀ t cols l o c, select_query t cols l o c =
      "SELECT " ++ String.intercalate ", " (pySplit cols ',') ++ " FROM " ++ t ++
        " WHERE " ++ c ++ " LIMIT " ++ l ++ " OFFSET " ++ o ++ ";") ∧
    (∀ cols : String, (∀ ch ∈ cols.data, ch ≠ ',') →
      String.intercalate ", " (pySplit cols ',') = cols) ∧
    (∀ t c, delete_query t c = "DELETE FROM " ++ t ++ " WHERE " ++ c ++ ";") ∧
    (∀ t, drop_table_query t = "DROP TABLE IF EXISTS " ++ t ++ ";") ∧
    (∀ t a, alter_table_query t a = "ALTER TABLE " ++ t ++ " " ++ a ++ ";") ∧
    (∀ v s, create_view_query v s = "CREATE VIEW " ++ v ++ " AS " ++ s ++ ";") ∧
    (∀ v, drop_view_query v = "DROP VIEW IF EXISTS " ++ v ++ ";") ∧
    (∀ t cols, create_table_query t cols = "CREATE TABLE " ++ t ++ " (" ++ dict_repr cols ++ ");") := by
  refine ⟨fun t cols l o c => rfl, fun cols h => ?_, fun t c => rfl, fun t => rfl,
    fun t a => rfl, fun v s => rfl, fun v => rfl, fun t cols => rfl⟩
  rw [pySplit, pySplitChar_of_not_mem ',' cols.data h]
  show String.intercalate ", " [String.mk cols.data] = cols
  rfl

/-- Witness for C5's amended statement: a comma-free column fragment (`*`) is
inserted verbatim. -/
theorem C5_fragments_amended_witness : String.intercalate ", " (pySplit "*" ',') = "*" :=
  C5_fragments_amended.2.1 "*" (by decide)

/-- Python `input(...).strip() or default`: the stripped text, or the default
when the stripped text is empty (`main.py` lines 152-153). -/
def strip_or_default (raw dflt : String) : String :=
  if pyStrip raw = "" then dflt else pyStrip raw

/-- The `select` branch of the driver (`main.py` lines 150-158): strips the
collected fragments, applies the limit/offset defaults and builds the
statement that is printed to the console. -/
def select_branch (table_name rawColumns rawLimit rawOffset rawCondition : String) : String :=
  select_query table_name (pyStrip rawColumns) (strip_or_default rawLimit "10")
    (strip_or_default rawOffset "0") (pyStrip rawCondition)

/-- C6: a blank limit defaults to `"10"` and a blank offset to `"0"`, and the
spec's scenario (table `t`, columns `*`, blank limit/offset/condition) yields
exactly `SELECT * FROM t WHERE  LIMIT 10 OFFSET 0;`. -/
theorem C6_select_defaults :
    (∀ t rawCols rl ro rc, pyStrip rl = "" → pyStrip ro = "" →
      select_branch t rawCols rl ro rc
        = select_query t (pyStrip rawCols) "10" "0" (pyStrip rc)) ∧
    select_branch "t" "*" "" "" "" = "SELECT * FROM t WHERE  LIMIT 10 OFFSET 0;" := by
  refine ⟨fun t rawCols rl ro rc h1 h2 => ?_, by decide⟩
  unfold select_branch strip_or_default
  rw [h1, h2]
  simp

/-- Witness for C6 at concrete inputs: whitespace-only limit and blank offset
fall back to the defaults. -/
theorem C6_select_defaults_witness :
    select_branch "t" "*" " " "" "x"
      = select_query "t" (pyStrip "*") "10" "0" (pyStrip "x") :=
  C6_select_defaults.1 "t" "*" " " "" "x" (by decide) (by decide)

/-- Index of the last occurrence of `c` in the list, or `-1` when absent
(Python `str.rfind` for a one-character needle). -/
def rfindIdx : List Char → Char → Int
  | [], _ => -1
  | a :: as, c =>
    let r := rfindIdx as c
    if r ≥ 0 then r + 1 else if a = c then 0 else -1

/-- CPython `posixpath.splitext` on a character list: split at the last dot
that lies after the last separator, unless the basename up to that dot is all
dots (leading dots of a hidden file do not start an extension). -/
def splitextList (p : List Char) : List Char × List Char :=
  let sepIndex := rfindIdx p '/'
  let dotIndex := rfindIdx p '.'
  if sepIndex < dotIndex then
    let lead := (p.drop (sepIndex + 1).toNat).take (dotIndex - sepIndex - 1).toNat
    if lead.all (fun ch => ch = '.') then (p, [])
    else (p.take dotIndex.toNat, p.drop dotIndex.toNat)
  else (p, [])

/-- `os.path.splitext` (POSIX), as used on `main.py` lines 21 and 106. -/
def os_path_splitext (p : String) : String × String :=
  let q := splitextList p.data
  (String.mk q.1, String.mk q.2)

/-- `os.path.basename` (POSIX): everything after the last separator. -/
def os_path_basename (p : String) : String :=
  String.mk (p.data.drop (rfindIdx p.data '/' + 1).toNat)

/-- `get_output_file_name` from `main.py` lines 99-107: the input's base name
with its extension stripped and `.sql` appended. -/
def get_output_file_name (input_file : String) : String :=
  (os_path_splitext (os_path_basename input_file)).1 ++ ".sql"

/-- `read_input_file` from `main.py` lines 14-31, with the two pandas readers
abstracted as parameters: dispatch on the lower-cased file extension, raising
`ValueError` (modelled as `Except.error`) on any other extension. -/
def read_input_file (readCsv readExcel : String → DataFrame) (file_path : String) :
    Except String DataFrame :=
  let file_extension := pyLower (os_path_splitext file_path).2
  if file_extension = ".csv" then .ok (readCsv file_path)
  else if file_extension = ".xls" ∨ file_extension = ".xlsx" then .ok (readExcel file_path)
  else .error "Unsupported file format. Please provide a CSV or Excel file."

/-- The `insert`/`update` branch of the driver (`main.py` lines 160-178) up to
the write step: read the input file, build the statement, and return the
output file name and statement text that `write_queries_to_file` would
receive; a reader error aborts the branch before any write. -/
def insert_update_branch (readCsv readExcel : String → DataFrame)
    (operation file_path table_name condition : String) : Except String (String × String) :=
  match read_input_file readCsv readExcel file_path with
  | .error e => .error e
  | .ok df =>
    let sql_query :=
      if operation = "insert" then generate_insert_queries df table_name
      else generate_update_queries df table_name condition
    .ok (get_output_file_name file_path, sql_query)

/-- C7: any input path whose lower-cased extension is not `.csv`, `.xls` or
`.xlsx` makes the reader raise the unsupported-format error, so the
insert/update branch aborts with that message and the write step is never
reached. -/
theorem C7_unsupported_extension (readCsv readExcel : String → DataFrame)
    (op p t c : String)
    (h : ¬(pyLower (os_path_splitext p).2 = ".csv" ∨ pyLower (os_path_splitext p).2 = ".xls" ∨
        pyLower (os_path_splitext p).2 = ".xlsx")) :
    read_input_file readCsv readExcel p
        = .error "Unsupported file format. Please provide a CSV or Excel file." ∧
    insert_update_branch readCsv readExcel op p t c
        = .error "Unsupported file format. Please provide a CSV or Excel file." := by
  have h1 : pyLower (os_path_splitext p).2 ≠ ".csv" := fun he => h (Or.inl he)
  have h2 : pyLower (os_path_splitext p).2 ≠ ".xls" := fun he => h (Or.inr (Or.inl he))
  have h3 : pyLower (os_path_splitext p).2 ≠ ".xlsx" := fun he => h (Or.inr (Or.inr he))
  have hread : read_input_file readCsv readExcel p
      = .error "Unsupported file format. Please provide a CSV or Excel file." := by
    simp [read_input_file, h1, h2, h3]
  refine ⟨hread, ?_⟩
  unfold insert_update_branch
  rw [hread]

/-- Witness for C7 at the spec's scenario: a `.txt` input is rejected before
anything is written. -/
theorem C7_unsupported_extension_witness :
    insert_update_branch (fun _ => ⟨[], []⟩) (fun _ => ⟨[], []⟩) "insert" "data.txt" "users" ""
      = .error "Unsupported file format. Please provide a CSV or Excel file." :=
  (C7_unsupported_extension (fun _ => ⟨[], []⟩) (fun _ => ⟨[], []⟩)
    "insert" "data.txt" "users" "" (by decide)).2

/-- `get_user_selection` from `main.py` lines 109-129, driven by the stream of
user inputs.  Each input is the outcome of Python `int(input(...))`: `some c`
when the text parsed as the integer `c`, `none` when it raised `ValueError`.
The loop re-prompts on a parse failure or an out-of-range integer; `none` is
returned only when the input stream runs out (the real loop would block). -/
def get_user_selection (options : List String) : List (Option Int) → Option String
  | [] => none
  | i :: rest =>
    match i with
    | none => get_user_selection options rest
    | some choice =>
      if 1 ≤ choice ∧ choice ≤ (options.length : Int) then options.get? (choice - 1).toNat
      else get_user_selection options rest

/-- An input the menu loop rejects: non-integer text, or an integer outside
`[1, option count]`. -/
def invalidInput (options : List String) : Option Int → Bool
  | none => true
  | some c => decide (c < 1) || decide ((options.length : Int) < c)

/-- C8: the menu loop rejects non-integer input and integers outside
`[1, option count]` by re-prompting, and the first in-range integer returns
the option at that 1-based index, regardless of later inputs. -/
theorem C8_menu_selection (options : List String) :
    (∀ rest, get_user_selection options (none :: rest) = get_user_selection options rest) ∧
    (∀ (c : Int) rest, c < 1 ∨ (options.length : Int) < c →
      get_user_selection options (some c :: rest) = get_user_selection options rest) ∧
    (∀ (pre : List (Option Int)) (c : Int) rest,
      (∀ i ∈ pre, invalidInput options i = true) →
      1 ≤ c → c ≤ (options.length : Int) →
      ∃ x, options.get? (c - 1).toNat = some x ∧
        get_user_selection options (pre ++ some c :: rest) = some x) := by
  refine ⟨fun rest => rfl, fun c rest h => ?_, fun pre c rest hpre hc1 hc2 => ?_⟩
  · have hc : ¬(1 ≤ c ∧ c ≤ (options.length : Int)) := by omega
    simp [get_user_selection, hc]
  · have hx : ∃ x, options.get? (c - 1).toNat = some x := by
      have hlt : (c - 1).toNat < options.length := by omega
      cases hg : options.get? (c - 1).toNat with
      | none =>
        rw [List.get?_eq_none] at hg
        omega
      | some x => exact ⟨x, rfl⟩
    obtain ⟨x, hx⟩ := hx
    refine ⟨x, hx, ?_⟩
    induction pre with
    | nil =>
      have hc : 1 ≤ c ∧ c ≤ (options.length : Int) := ⟨hc1, hc2⟩
      have hx2 : options[c.toNat - 1]? = some x := by
        rw [← hx, List.get?_eq_getElem?]
        congr 1
        omega
      simp [get_user_selection, hc, hx2]
    | cons i pre ih =>
      have hi := hpre i (by simp)
      have hrest : ∀ j ∈ pre, invalidInput options j = true := fun j hj => hpre j (by simp [hj])
      cases i with
      | none => simpa [get_user_selection] using ih hrest
      | some c2 =>
        have hc2' : ¬(1 ≤ c2 ∧ c2 ≤ (options.length : Int)) := by
          simp [invalidInput] at hi
          omega
        simpa [get_user_selection, hc2'] using ih hrest

/-- Witness for C8 at concrete inputs: after a parse failure, a `0` and an
out-of-range `4`, the first valid choice `2` selects the second option. -/
theorem C8_menu_selection_witness :
    ∃ x, (["alpha", "beta", "gamma"] : List String).get? ((2 : Int) - 1).toNat = some x ∧
      get_user_selection ["alpha", "beta", "gamma"]
        ([none, some 0, some 4] ++ some 2 :: [some 1]) = some x :=
  (C8_menu_selection ["alpha", "beta", "gamma"]).2.2 [none, some 0, some 4] 2 [some 1]
    (by decide) (by decide) (by decide)

/-- The file-system state the writer touches: the set of existing directories
and the files, looked up by path (most recent write first). -/
structure FileSystem where
  dirs : List String
  files : List (String × String)

/-- `os.makedirs` on a single-component relative path: raises
`FileExistsError` when the directory already exists, otherwise records it. -/
def os_makedirs (d : String) (fs : FileSystem) : Except String FileSystem :=
  if d ∈ fs.dirs then .error "FileExistsError" else .ok { fs with dirs := d :: fs.dirs }

/-- `os.path.join` for POSIX paths (`main.py` line 91): the second component
wins when absolute, otherwise a single separator is inserted unless the first
component already ends in one. -/
def os_path_join (a b : String) : String :=
  if b.data.head? = some '/' then b
  else if a = "" ∨ a.data.getLast? = some '/' then a ++ b
  else a ++ "/" ++ b

/-- `write_queries_to_file` from `main.py` lines 76-97: create `./storage`
only when it does not yet exist, then (over)write
`./storage/<output_file>` with the statement text followed by a blank line. -/
def write_queries_to_file (query output_file : String) (fs : FileSystem) :
    Except String FileSystem :=
  let directory := "./storage"
  match (if directory ∈ fs.dirs then Except.ok fs else os_makedirs directory fs) with
  | .error e => .error e
  | .ok fs1 =>
    let output_file_path := os_path_join directory output_file
    .ok { fs1 with files := (output_file_path, query ++ "\n\n") :: fs1.files }

/-- C9: the default output name strips the input's extension and appends
`.sql`, the file lands under `./storage`, the directory creation is guarded
so a second call never fails on the pre-existing directory, and each write
stores the statement text followed by a blank line, shadowing any previous
file at that path. -/
theorem C9_output_writer :
    (∀ p, get_output_file_name p = (os_path_splitext (os_path_basename p)).1 ++ ".sql") ∧
    get_output_file_name "/tmp/data.csv" = "data.sql" ∧
    os_path_join "./storage" (get_output_file_name "/tmp/data.csv") = "./storage/data.sql" ∧
    (∀ (fs : FileSystem) (q q2 out : String),
      ∃ fs1, write_queries_to_file q out fs = .ok fs1 ∧
        "./storage" ∈ fs1.dirs ∧
        fs1.files.lookup (os_path_join "./storage" out) = some (q ++ "\n\n") ∧
        ∃ fs2, write_queries_to_file q2 out fs1 = .ok fs2 ∧
          fs2.files.lookup (os_path_join "./storage" out) = some (q2 ++ "\n\n")) := by
  refine ⟨fun p => rfl, by decide, by decide, fun fs q q2 out => ?_⟩
  by_cases hd : "./storage" ∈ fs.dirs
  · refine ⟨⟨fs.dirs, (os_path_join "./storage" out, q ++ "\n\n") :: fs.files⟩,
      by simp [write_queries_to_file, hd], hd, by simp [List.lookup], ?_⟩
    refine ⟨⟨fs.dirs, (os_path_join "./storage" out, q2 ++ "\n\n") ::
        ((os_path_join "./storage" out, q ++ "\n\n") :: fs.files)⟩,
      by simp [write_queries_to_file, hd], by simp [List.lookup]⟩
  · refine ⟨⟨"./storage" :: fs.dirs, (os_path_join "./storage" out, q ++ "\n\n") :: fs.files⟩,
      by simp [write_queries_to_file, os_makedirs, hd], by simp, by simp [List.lookup], ?_⟩
    refine ⟨⟨"./storage" :: fs.dirs, (os_path_join "./storage" out, q2 ++ "\n\n") ::
        ((os_path_join "./storage" out, q ++ "\n\n") :: fs.files)⟩,
      by simp [write_queries_to_file], by simp [List.lookup]⟩

/-- C10: the CREATE TABLE statement interpolates the Python `str()` of the
collected column dictionary — braces, quoted names, colons and all — so one
column `id` of type `INT` with key `PRIMARY KEY` and no default renders as
`CREATE TABLE t (\x7b'id': 'INT PRIMARY KEY '\x7d);`, and entering no columns
renders `CREATE TABLE <table> (\x7b\x7d);`. -/
theorem C10_create_table_dict_repr :
    create_table_query "t" [("id", column_def "INT" "PRIMARY KEY" "")]
      = "CREATE TABLE t (\x7b'id': 'INT PRIMARY KEY '\x7d);" ∧
    (∀ t, create_table_query t [] = "CREATE TABLE " ++ t ++ " (\x7b\x7d);") := by
  refine ⟨by decide, fun t => ?_⟩
  apply String.ext
  simp [create_table_query, dict_repr, String.data_append, String.intercalate]
